import Mathlib

/-!
Verification development for the ESS data-analysis web application.
The frontend logic is embedded from `script.js`; the analysis engine
(`backend.py`) is not part of the provided sources, so its operations are
modelled from the specification (each such definition says so in its doc
comment).
-/

namespace ESS

open Matrix

/-! ### Regression engine (modelled from the spec) -/

/-- Modelled from the spec: the error taxonomy of §4.3/§7 for the regression
engine of the missing `backend.py` (`InsufficientDataError`,
`SingularDesignMatrixError`). -/
inductive RegressionError where
  | insufficientData
  | singularDesignMatrix
  deriving DecidableEq, Repr

/-- Modelled from the spec: the design matrix of §4.3 — the complete-case
predictor matrix with an intercept column of ones prepended. -/
def design {n k : ℕ} (X : Matrix (Fin n) (Fin k) ℚ) :
    Matrix (Fin n) (Fin (k + 1)) ℚ :=
  Matrix.of fun i => Fin.cons 1 (X i)

/-- Modelled from the spec: solving the normal equations of §4.3 for the
coefficient vector, through the adjugate (Cramer's rule). -/
def solveNormal {n m : ℕ} (A : Matrix (Fin n) (Fin m) ℚ) (y : Fin n → ℚ) :
    Fin m → ℚ :=
  fun j => ((Aᵀ * A).det)⁻¹ * ((Aᵀ * A).adjugate *ᵥ (Aᵀ *ᵥ y)) j

/-- Modelled from the spec: the §4.3 regression output — coefficient vector
(intercept first), residuals aligned to the fitted observations, R², and the
number of observations flagged as outliers. -/
structure FitResult (n k : ℕ) where
  beta : Fin (k + 1) → ℚ
  residuals : Fin n → ℚ
  rSquared : ℚ
  outlierCount : ℕ

/-- Modelled from the spec: `fit(dataset, response, predictors)` of §4.3 on
the complete-case data (response vector `y`, predictor matrix `X`).  Fewer
rows than predictors plus one fails with `InsufficientDataError`; a singular
normal-equation matrix fails with `SingularDesignMatrixError`; otherwise the
normal equations are solved, residuals and R² follow the documented formulas,
and an observation is flagged as an outlier when its squared residual exceeds
`3 ^ 2` times the residual variance (its standardized residual exceeds the
fixed threshold 3 in absolute value). -/
def fit {n k : ℕ} (y : Fin n → ℚ) (X : Matrix (Fin n) (Fin k) ℚ) :
    Except RegressionError (FitResult n k) :=
  if n < k + 1 then .error .insufficientData
  else
    let A := design X
    if (Aᵀ * A).det = 0 then .error .singularDesignMatrix
    else
      let beta := solveNormal A y
      let residuals : Fin n → ℚ := fun i => y i - (A *ᵥ beta) i
      let sse : ℚ := ∑ i, residuals i ^ 2
      let ybar : ℚ := (∑ i, y i) / (n : ℚ)
      let sst : ℚ := ∑ i, (y i - ybar) ^ 2
      let residVar : ℚ := sse / ((n : ℚ) - ((k : ℚ) + 1))
      .ok { beta := beta
            residuals := residuals
            rSquared := 1 - sse / sst
            outlierCount :=
              (Finset.univ.filter fun i => 9 * residVar < residuals i ^ 2).card }

/-- A matrix is rank-deficient when its columns are linearly dependent: some
nonzero coefficient vector combines them to zero. -/
def RankDeficient {n m : ℕ} (A : Matrix (Fin n) (Fin m) ℚ) : Prop :=
  ∃ c : Fin m → ℚ, c ≠ 0 ∧ A *ᵥ c = 0

/-- Predictor matrix with two perfectly collinear columns (`x2 = 3 * x1`). -/
def collinearX : Matrix (Fin 4) (Fin 2) ℚ :=
  Matrix.of ![![1, 3], ![2, 6], ![3, 9], ![4, 12]]

/-- Predictor matrix with a single zero-variance (constant) column. -/
def constX : Matrix (Fin 4) (Fin 1) ℚ :=
  Matrix.of ![![5], ![5], ![5], ![5]]

/-- Single-predictor design data: the predictor values as a one-column
matrix. -/
def colMatrix {n : ℕ} (x : Fin n → ℚ) : Matrix (Fin n) (Fin 1) ℚ :=
  Matrix.of fun i _ => x i

/-! ### Correlation engine (modelled from the spec) -/

/-- An observation: one survey respondent's record, keyed by variable name,
with `none` for a missing value. -/
abbrev Obs := String → Option ℚ

/-- Modelled from the spec: the pairwise-complete observations of §4.4 for a
pair of variables — a pair excludes only the rows missing either of the two
variables involved. -/
def pairRows (ds : List Obs) (a b : String) : List (ℚ × ℚ) :=
  ds.filterMap fun r =>
    match r a, r b with
    | some qa, some qb => some (qa, qb)
    | _, _ => none

/-- Mean of the first components of the paired observations. -/
def meanFst (ps : List (ℚ × ℚ)) : ℚ := (ps.map Prod.fst).sum / ps.length

/-- Mean of the second components of the paired observations. -/
def meanSnd (ps : List (ℚ × ℚ)) : ℚ := (ps.map Prod.snd).sum / ps.length

/-- Sum over the paired observations of the product of deviations from the
pair-subset means (the Pearson numerator). -/
def sAB (ps : List (ℚ × ℚ)) : ℚ :=
  (ps.map fun p => (p.1 - meanFst ps) * (p.2 - meanSnd ps)).sum

/-- Sum of squared deviations of the first components. -/
def sAA (ps : List (ℚ × ℚ)) : ℚ :=
  (ps.map fun p => (p.1 - meanFst ps) ^ 2).sum

/-- Sum of squared deviations of the second components. -/
def sBB (ps : List (ℚ × ℚ)) : ℚ :=
  (ps.map fun p => (p.2 - meanSnd ps) ^ 2).sum

/-- Modelled from the spec: one cell of `correlate(dataset, variables)` of
§4.4 — the Pearson coefficient of a pair of variables over the
pairwise-complete observations of that pair.  A cell over a zero-variance
pair subset is degenerate (`DegenerateVarianceError` in the spec); the claims
only speak about defined (non-degenerate) cells. -/
noncomputable def correlate (ds : List Obs) (a b : String) : ℝ :=
  (sAB (pairRows ds a b) : ℝ) /
    Real.sqrt ((sAA (pairRows ds a b) : ℝ) * (sBB (pairRows ds a b) : ℝ))

/-- Concrete three-row dataset with two numeric variables, used by the
correlation witness. -/
def corrDs : List Obs :=
  [fun s => if s = "x" then some 1 else if s = "y" then some 1 else none,
   fun s => if s = "x" then some 2 else if s = "y" then some 2 else none,
   fun s => if s = "x" then some 3 else if s = "y" then some 4 else none]

/-! ### Dataset store cleaning (modelled from the spec) -/

/-- Modelled from the spec: a Variable Catalog entry of §3 — the valid range
and the missing-value sentinel codes of one cataloged variable. -/
structure VarSpec where
  lo : ℚ
  hi : ℚ
  sentinels : List ℚ

/-- A raw row, positionally aligned with the catalog; `none` is a missing
value. -/
abbrev RawRow := List (Option ℚ)

/-- Modelled from the spec: §4.1 cleaning rules (a)/(c) on one value — a
sentinel code or an out-of-range value becomes missing, anything else is kept
unchanged. -/
def cleanValue (spec : VarSpec) : Option ℚ → Option ℚ
  | none => none
  | some q =>
    if q ∈ spec.sentinels ∨ q < spec.lo ∨ spec.hi < q then none else some q

/-- Clean every cataloged field of one row. -/
def cleanRow (catalog : List VarSpec) (r : RawRow) : RawRow :=
  List.zipWith cleanValue catalog r

/-- Number of values of a row that cleaning sends to missing. -/
def rowChangeCount (catalog : List VarSpec) (r : RawRow) : ℕ :=
  (List.zipWith (fun spec v => if cleanValue spec v = v then 0 else 1)
    catalog r).sum

/-- Modelled from the spec: the CleaningReport of §3 — per-rule counts of
values made missing and rows dropped, attached to the cleaned dataset. -/
structure CleaningReport where
  valuesSetMissing : ℕ
  rowsDroppedMissingResponse : ℕ
  deriving DecidableEq, Repr

/-- Row-keeping test of §4.1 rule (b): the primary response variable is
present. -/
def hasResponse (respIdx : ℕ) (r : RawRow) : Bool :=
  (r.getD respIdx none).isSome

/-- Modelled from the spec: the §4.1 cleaning pipeline of the missing
`backend.py` — rules (a)/(c) map sentinel and out-of-range values to missing
and count them, rule (b) drops the rows missing the primary response
variable; the result is a new dataset plus its CleaningReport. -/
def clean (catalog : List VarSpec) (respIdx : ℕ) (ds : List RawRow) :
    List RawRow × CleaningReport :=
  let cleaned := ds.map (cleanRow catalog)
  let kept := cleaned.filter (hasResponse respIdx)
  (kept,
    { valuesSetMissing := (ds.map (rowChangeCount catalog)).sum
      rowsDroppedMissingResponse := cleaned.length - kept.length })

/-! ### Prompt composer (modelled from the spec) -/

/-- Modelled from the spec: the closed research-depth enum of §3/§9 for the
missing `backend.py` prompt composer. -/
inductive ResearchDepth where
  | brief
  | standard
  | deep
  deriving DecidableEq, Repr

/-- Fixed methodology caveat clause injected at depth `deep` (§4.5). -/
def methodologyCaveat : String :=
  "Discuss statistical limitations: sample bias, missingness, and causal-versus-correlational framing."

/-- Modelled from the spec: the §4.5 composed system/user prompt pair
together with the grounding facts included in the context. -/
structure PromptBundle where
  systemPrompt : String
  userPrompt : String
  groundingFacts : List String
  deriving DecidableEq, Repr

/-- Modelled from the spec: `compose(depth, grounding, userMessage)` of §4.5
of the missing `backend.py` — `brief` includes at most 3 grounding facts and
instructs a concise single paragraph, `standard` up to 8 with structured
answers, `deep` the full grounding set plus the methodology caveat clause. -/
def compose (depth : ResearchDepth) (grounding : List String)
    (userMessage : String) : PromptBundle :=
  match depth with
  | .brief =>
    { systemPrompt :=
        "Answer concisely in a single paragraph. Grounding: " ++
          String.intercalate "; " (grounding.take 3)
      userPrompt := userMessage
      groundingFacts := grounding.take 3 }
  | .standard =>
    { systemPrompt :=
        "Answer with structured, multi-section detail. Grounding: " ++
          String.intercalate "; " (grounding.take 8)
      userPrompt := userMessage
      groundingFacts := grounding.take 8 }
  | .deep =>
    { systemPrompt :=
        "Answer in depth, discussing limitations. Grounding: " ++
          String.intercalate "; " grounding ++ " " ++ methodologyCaveat
      userPrompt := userMessage
      groundingFacts := grounding }

/-! ### Frontend chat (`sendMessage` of `script.js`) -/

/-- A chat bubble as appended by `addMessageToChat(sender, content)`. -/
structure ChatMessage where
  sender : String
  content : String
  deriving DecidableEq, Repr

/-- The JSON body of the `POST ai-assistant` request built by
`sendMessage`. -/
structure AIRequestBody where
  message : String
  research_depth : String
  deriving DecidableEq, Repr

/-- Outcome of the AI-endpoint `fetch` as observable by `sendMessage`: a
network fault (the promise rejects), or a response carrying the HTTP ok
flag, the status code, and — when the body parses as JSON of the contract
shape — its `response` field (`none` models a body on which
`response.json()` throws). -/
inductive FetchOutcome where
  | networkError
  | response (ok : Bool) (status : Nat) (body : Option String)
  deriving DecidableEq, Repr

/-- Embedded model of the JavaScript `String.prototype.trim` used on the
chat input: strip leading and trailing whitespace. -/
def jsTrim (s : String) : String :=
  String.mk
    (((s.data.dropWhile Char.isWhitespace).reverse.dropWhile
      Char.isWhitespace).reverse)

/-- The fixed error bubble text of `script.js` line 116. -/
def aiErrorText : String :=
  "Sorry, I encountered an error. Please try again. You may need to check if the backend is running."

/-- Result of one `sendMessage` run: the chat transcript afterwards and the
request body sent, if any. -/
structure SendResult where
  chat : List ChatMessage
  request : Option AIRequestBody
  deriving DecidableEq, Repr

/-- Embedded from `sendMessage` of `script.js` (lines 83–118): trim the
input and return silently when the result is empty; otherwise append the
user bubble, send `{message, research_depth}`, and append either the
`response` field of the parsed reply (ok status, well-formed body) or the
fixed error bubble (caught fault: network error, non-ok status, or a body
on which JSON parsing throws). -/
def sendMessage (inputValue : String) (researchDepth : String)
    (outcome : FetchOutcome) (chat : List ChatMessage) : SendResult :=
  let message := jsTrim inputValue
  if message = "" then { chat := chat, request := none }
  else
    let chat1 := chat ++ [{ sender := "user", content := message }]
    let req : AIRequestBody :=
      { message := message, research_depth := researchDepth }
    match outcome with
    | .networkError =>
      { chat := chat1 ++ [{ sender := "ai", content := aiErrorText }]
        request := some req }
    | .response ok _ body =>
      if ok then
        match body with
        | some r =>
          { chat := chat1 ++ [{ sender := "ai", content := r }]
            request := some req }
        | none =>
          { chat := chat1 ++ [{ sender := "ai", content := aiErrorText }]
            request := some req }
      else
        { chat := chat1 ++ [{ sender := "ai", content := aiErrorText }]
          request := some req }

/-! ### Client-side fabricated box-plot spread (`script.js`) -/

/-- Embedded from `script.js` lines 387, 407, 413, 430, 446, 462: one
fabricated box-plot sample — the group mean plus uniform jitter
`(Math.random() - 0.5) * 2`, for a random draw `r`. -/
def jitteredValue (mean r : ℚ) : ℚ := mean + (r - 1 / 2) * 2

/-- Embedded from `createCountryCharts` (`script.js` 386–391): the fabricated
per-country box-plot series — one jittered copy of the group mean per counted
observation, driven by the stream of `Math.random()` draws. -/
def countryBoxY (mean : ℚ) (count : ℕ) (rand : ℕ → ℚ) : List ℚ :=
  (List.range count).map fun i => jitteredValue mean (rand i)

/-- Embedded from `createDemographicsCharts` (`script.js` 403–475): a
fabricated demographic box-plot series — 1000 jittered copies of the group
mean (the gender and age-group plots; the education and political plots use
8000 copies the same way). -/
def demoBoxY (mean : ℚ) (rand : ℕ → ℚ) : List ℚ :=
  (List.range 1000).map fun i => jitteredValue mean (rand i)

/-! ### Frontend data loading (`loadData` of `script.js`) -/

/-- The parsed payload of the scatter endpoint; `loadData` reads its `data`
field (`scatterData.data`, `script.js` line 190). -/
structure ScatterPayload (J : Type) where
  data : J
  deriving DecidableEq

/-- The assembled `currentData` object of `script.js` lines 185–192. -/
structure AppData (J : Type) where
  overview : J
  distributions : J
  countryStats : J
  demographics : J
  scatterData : J
  regression : J
  deriving DecidableEq

/-- Final page state produced by one `loadData` run: the `currentData`
global, the rendering functions invoked, whether the loading overlay is
still shown, and the error notification, if any. -/
structure UIState (J : Type) where
  currentData : Option (AppData J)
  renderCalls : List String
  loadingVisible : Bool
  errorMessage : Option String
  deriving DecidableEq

/-- The `catch` branch of `loadData` (`script.js` 200–204): hide the loading
overlay, show the error notification, leave `currentData` untouched, render
nothing. -/
def loadFailState {J : Type} (prev : Option (AppData J)) (e : String) :
    UIState J :=
  { currentData := prev
    renderCalls := []
    loadingVisible := false
    errorMessage := some ("Failed to load data: " ++ e ++
      ". Please ensure the FastAPI backend is running on port 8000.") }

/-- Embedded from `loadData` of `script.js` (lines 150–205): six sequential
fetches, each of which throws on network error, non-ok status, or an
unparsable body (all folded into the `Except` error value); only when all
six succeed is `currentData` assigned and are `updateMetrics`,
`createCharts` and `performAnalysis` invoked; the first failure jumps to
`catch`, which hides the loading overlay and shows the error notification,
leaving `currentData` as it was. -/
def loadData {J : Type} (prev : Option (AppData J))
    (overviewR regressionR distributionsR countryR demographicsR :
      Except String J)
    (scatterR : Except String (ScatterPayload J)) : UIState J :=
  match overviewR with
  | .error e => loadFailState prev e
  | .ok overview =>
    match regressionR with
    | .error e => loadFailState prev e
    | .ok regression =>
      match distributionsR with
      | .error e => loadFailState prev e
      | .ok distributions =>
        match countryR with
        | .error e => loadFailState prev e
        | .ok countryStats =>
          match demographicsR with
          | .error e => loadFailState prev e
          | .ok demographics =>
            match scatterR with
            | .error e => loadFailState prev e
            | .ok scatter =>
              { currentData := some
                  { overview := overview
                    distributions := distributions
                    countryStats := countryStats
                    demographics := demographics
                    scatterData := scatter.data
                    regression := regression }
                renderCalls :=
                  ["updateMetrics", "createCharts", "performAnalysis"]
                loadingVisible := false
                errorMessage := none }

/-! ### Distribution charts (`createDistributionCharts` of `script.js`) -/

/-- Embedded from `script.js` line 322: the client-generated x-axis of the
age chart — `Array.from({length: 74}, (_, i) => i + 16)`. -/
def ageXValues : List ℕ := (List.range 74).map fun i => i + 16

/-- Embedded from `script.js` line 348: the seven fixed education category
labels. -/
def educationXLabels : List String := ["1", "2", "3", "4", "5", "6", "7"]

/-- An x/y chart series as handed to the plotting library. -/
structure ChartSeries (X : Type) where
  x : List X
  y : List ℚ
  deriving DecidableEq

/-- Embedded from `createDistributionCharts` (`script.js` 320–344): the age
series pairs the received frequencies with the fixed client-generated
axis. -/
def ageSeries (ageFreqs : List ℚ) : ChartSeries ℕ :=
  { x := ageXValues, y := ageFreqs }

/-- Embedded from `createDistributionCharts` (`script.js` 346–368): the
education series pairs the received frequencies with the seven fixed
labels. -/
def educationSeries (eduFreqs : List ℚ) : ChartSeries String :=
  { x := educationXLabels, y := eduFreqs }

/-! ### Theorems: the claims and their supporting lemmas -/

/-- Column dependence is exactly rank deficiency in the usual sense: the rank
of the matrix falls short of its number of columns. -/
theorem rankDeficient_iff_rank_lt {n m : ℕ} (A : Matrix (Fin n) (Fin m) ℚ) :
    RankDeficient A ↔ A.rank < m := by
  have hrn := LinearMap.finrank_range_add_finrank_ker A.mulVecLin
  have hdom : Module.finrank ℚ (Fin m → ℚ) = m := by
    simp [Module.finrank_pi]
  constructor
  · rintro ⟨c, hc0, hc⟩
    have hker : LinearMap.ker A.mulVecLin ≠ ⊥ := by
      intro hbot
      have : c ∈ LinearMap.ker A.mulVecLin := by
        simp [LinearMap.mem_ker, Matrix.mulVecLin_apply, hc]
      rw [hbot] at this
      exact hc0 (by simpa using this)
    have hpos : 0 < Module.finrank ℚ (LinearMap.ker A.mulVecLin) := by
      rcases Nat.eq_zero_or_pos (Module.finrank ℚ (LinearMap.ker A.mulVecLin)) with h0 | h
      · exact absurd (Submodule.finrank_eq_zero.mp h0) hker
      · exact h
    have hsum : A.rank + Module.finrank ℚ (LinearMap.ker A.mulVecLin) = m := by
      rw [Matrix.rank, hrn, hdom]
    omega
  · intro hlt
    have hker : LinearMap.ker A.mulVecLin ≠ ⊥ := by
      intro hbot
      have h0 : Module.finrank ℚ (LinearMap.ker A.mulVecLin) = 0 := by
        rw [hbot]
        simp
      have : A.rank = m := by
        have := hrn
        rw [hdom] at this
        rw [Matrix.rank]
        omega
      omega
    obtain ⟨c, hmem, hc0⟩ := (Submodule.ne_bot_iff _).mp hker
    exact ⟨c, hc0, by simpa [Matrix.mulVecLin_apply] using hmem⟩

/-- When the design matrix has linearly dependent columns, the
normal-equation matrix is singular. -/
theorem normal_det_zero_of_rankDeficient {n m : ℕ}
    {A : Matrix (Fin n) (Fin m) ℚ} (h : RankDeficient A) :
    (Aᵀ * A).det = 0 := by
  obtain ⟨c, hc0, hc⟩ := h
  refine (Matrix.exists_mulVec_eq_zero_iff).mp ⟨c, hc0, ?_⟩
  rw [← Matrix.mulVec_mulVec, hc, Matrix.mulVec_zero]

/-- C1: whenever the design matrix is rank-deficient (and there are at least
`predictors + 1` complete-case rows, so that the insufficient-data
precondition of §4.3 does not fire first), `fit` fails with
`SingularDesignMatrixError` and returns no coefficients and no partial
result. -/
theorem fit_rank_deficient_fails {n k : ℕ} (y : Fin n → ℚ)
    (X : Matrix (Fin n) (Fin k) ℚ) (hn : k + 1 ≤ n)
    (hdef : RankDeficient (design X)) :
    fit y X = .error .singularDesignMatrix := by
  have hdet := normal_det_zero_of_rankDeficient hdef
  have hnlt : ¬ n < k + 1 := Nat.not_lt.mpr hn
  simp [fit, hnlt, hdet]

/-- Witness for C1: on a concrete dataset, regression on two perfectly
collinear predictors (`x2 = 3 * x1`) fails with `SingularDesignMatrixError`,
and so does regression on a predictor with zero variance. -/
theorem fit_rank_deficient_fails_witness :
    fit ![1, 2, 3, 4] collinearX = .error .singularDesignMatrix ∧
    fit ![1, 2, 3, 4] constX = .error .singularDesignMatrix := by
  constructor
  · refine fit_rank_deficient_fails ![1, 2, 3, 4] collinearX (by norm_num)
      ⟨![0, 3, -1], ?_, ?_⟩
    · intro h
      have h1 := congrFun h 1
      norm_num at h1
    · funext i
      fin_cases i <;>
        simp [design, collinearX, Matrix.mulVec, Matrix.dotProduct,
          Fin.sum_univ_succ] <;>
        norm_num
  · refine fit_rank_deficient_fails ![1, 2, 3, 4] constX (by norm_num)
      ⟨![5, -1], ?_, ?_⟩
    · intro h
      have h1 := congrFun h 0
      norm_num at h1
    · funext i
      fin_cases i <;>
        simp [design, constX, Matrix.mulVec, Matrix.dotProduct,
          Fin.sum_univ_succ, Matrix.vecHead, Matrix.vecTail]

/-- When the normal-equation matrix is invertible and the response is exactly
the linear combination `A *ᵥ c` of the design columns, solving the normal
equations recovers `c` exactly. -/
theorem solveNormal_exact {n m : ℕ} {A : Matrix (Fin n) (Fin m) ℚ}
    {c : Fin m → ℚ} {y : Fin n → ℚ} (hdet : (Aᵀ * A).det ≠ 0)
    (hy : A *ᵥ c = y) : solveNormal A y = c := by
  funext j
  simp only [solveNormal]
  rw [← hy, Matrix.mulVec_mulVec, Matrix.mulVec_mulVec, Matrix.mul_assoc,
    Matrix.adjugate_mul,
    Matrix.smul_mulVec_assoc, Matrix.one_mulVec, Pi.smul_apply, smul_eq_mul,
    ← mul_assoc, inv_mul_cancel₀ hdet, one_mul]

/-- C3: on any dataset whose response satisfies `y = 2 * x + 1` exactly for a
single predictor `x`, with the regression preconditions holding (at least two
complete-case rows and a nonsingular normal-equation matrix), `fit` returns
intercept 1, coefficient 2, R² equal to 1, and the outlier detection flags
zero outliers. -/
theorem fit_exact_line {n : ℕ} (x : Fin n → ℚ) (hn : 2 ≤ n)
    (hdet : ((design (colMatrix x))ᵀ * design (colMatrix x)).det ≠ 0) :
    fit (fun i => 2 * x i + 1) (colMatrix x) =
      .ok { beta := ![1, 2]
            residuals := fun _ => 0
            rSquared := 1
            outlierCount := 0 } := by
  have hy : design (colMatrix x) *ᵥ ![(1 : ℚ), 2] = fun i => 2 * x i + 1 := by
    funext i
    simp [design, colMatrix, Matrix.mulVec, Matrix.dotProduct, Fin.sum_univ_succ]
    ring
  have hbeta := solveNormal_exact hdet hy
  have hnlt : ¬ n < 1 + 1 := by omega
  simp [fit, hnlt, hdet, hbeta, hy]

/-- Witness for C3: fitting the exact line `y = 2 * x + 1` on the concrete
predictor values `0, 1, 2, 3` meets the preconditions and produces intercept
1, coefficient 2, R² equal to 1, and zero flagged outliers. -/
theorem fit_exact_line_witness :
    (2 : ℕ) ≤ 4 ∧
    fit (fun i => 2 * (![0, 1, 2, 3] : Fin 4 → ℚ) i + 1) (colMatrix ![0, 1, 2, 3]) =
      .ok { beta := ![1, 2]
            residuals := fun _ => 0
            rSquared := 1
            outlierCount := 0 } := by
  refine ⟨by norm_num, fit_exact_line ![0, 1, 2, 3] (by norm_num) ?_⟩
  simp [Matrix.det_fin_two, Matrix.mul_apply, Matrix.transpose_apply, design,
    colMatrix, Fin.sum_univ_succ, Fin.cons_zero, Fin.cons_one,
    Matrix.vecHead, Matrix.vecTail]
  norm_num

theorem pairRows_swap (ds : List Obs) (a b : String) :
    pairRows ds b a = (pairRows ds a b).map Prod.swap := by
  induction ds with
  | nil => rfl
  | cons r t ih =>
    simp only [pairRows, List.filterMap_cons] at ih ⊢
    cases h1 : r a <;> cases h2 : r b <;> simp [h1, h2, ih]

theorem meanFst_swap (ps : List (ℚ × ℚ)) :
    meanFst (ps.map Prod.swap) = meanSnd ps := by
  simp [meanFst, meanSnd, List.map_map, Function.comp_def]

theorem meanSnd_swap (ps : List (ℚ × ℚ)) :
    meanSnd (ps.map Prod.swap) = meanFst ps := by
  simp [meanFst, meanSnd, List.map_map, Function.comp_def]

theorem sAB_swap (ps : List (ℚ × ℚ)) : sAB (ps.map Prod.swap) = sAB ps := by
  simp only [sAB, meanFst_swap, meanSnd_swap, List.map_map, Function.comp_def,
    Prod.fst_swap, Prod.snd_swap]
  congr 1
  exact List.map_congr_left fun p _ => mul_comm _ _

theorem sAA_swap (ps : List (ℚ × ℚ)) : sAA (ps.map Prod.swap) = sBB ps := by
  simp [sAA, sBB, meanFst_swap, List.map_map, Function.comp_def]

theorem sBB_swap (ps : List (ℚ × ℚ)) : sBB (ps.map Prod.swap) = sAA ps := by
  simp [sAA, sBB, meanSnd_swap, List.map_map, Function.comp_def]

theorem list_map_sum_eq_finsum {α : Type*} (l : List α) (f : α → ℚ) :
    (l.map f).sum = ∑ i : Fin l.length, f (l.get i) := by
  induction l with
  | nil => simp
  | cons a t ih =>
    simp only [List.map_cons, List.sum_cons, ih, List.length_cons,
      Fin.sum_univ_succ, List.get_cons_zero]
    rfl

/-- Cauchy–Schwarz for the deviation sums: the squared Pearson numerator is
at most the product of the two squared-deviation sums. -/
theorem sAB_sq_le (ps : List (ℚ × ℚ)) : sAB ps ^ 2 ≤ sAA ps * sBB ps := by
  rw [sAB, sAA, sBB, list_map_sum_eq_finsum, list_map_sum_eq_finsum,
    list_map_sum_eq_finsum]
  exact Finset.sum_mul_sq_le_sq_mul_sq Finset.univ _ _

theorem sAA_nonneg (ps : List (ℚ × ℚ)) : 0 ≤ sAA ps := by
  refine List.sum_nonneg fun q hq => ?_
  obtain ⟨p, -, rfl⟩ := List.mem_map.mp hq
  positivity

theorem sBB_nonneg (ps : List (ℚ × ℚ)) : 0 ≤ sBB ps := by
  refine List.sum_nonneg fun q hq => ?_
  obtain ⟨p, -, rfl⟩ := List.mem_map.mp hq
  positivity

/-- Both coordinates agree on every self-pairing row. -/
theorem pairRows_self_eq (ds : List Obs) (a : String) :
    ∀ p ∈ pairRows ds a a, p.1 = p.2 := by
  intro p hp
  obtain ⟨r, -, hr⟩ := List.mem_filterMap.mp hp
  cases h : r a with
  | none => rw [h] at hr; exact absurd hr (by simp)
  | some q => rw [h] at hr; simp at hr; rw [← hr]

/-- C2: the correlation matrix is symmetric, every defined (non-degenerate)
coefficient lies in `[-1, 1]`, and the diagonal cell of every non-degenerate
variable equals 1. -/
theorem correlate_matrix_props (ds : List Obs) (a b v : String) :
    correlate ds a b = correlate ds b a ∧
    (sAA (pairRows ds a b) * sBB (pairRows ds a b) ≠ 0 →
      -1 ≤ correlate ds a b ∧ correlate ds a b ≤ 1) ∧
    (sAA (pairRows ds v v) ≠ 0 → correlate ds v v = 1) := by
  refine ⟨?_, ?_, ?_⟩
  · rw [correlate, correlate, pairRows_swap ds a b, sAB_swap, sAA_swap, sBB_swap,
      mul_comm]
  · intro hdef
    have hA := sAA_nonneg (pairRows ds a b)
    have hB := sBB_nonneg (pairRows ds a b)
    have hpos : 0 < sAA (pairRows ds a b) * sBB (pairRows ds a b) :=
      lt_of_le_of_ne (mul_nonneg hA hB) (Ne.symm hdef)
    have hposR : (0 : ℝ) < (sAA (pairRows ds a b) : ℝ) * (sBB (pairRows ds a b) : ℝ) := by
      exact_mod_cast hpos
    have hsq : ((sAB (pairRows ds a b) : ℝ)) ^ 2 ≤
        (sAA (pairRows ds a b) : ℝ) * (sBB (pairRows ds a b) : ℝ) := by
      exact_mod_cast sAB_sq_le (pairRows ds a b)
    have hsqrtpos : (0 : ℝ) < Real.sqrt ((sAA (pairRows ds a b) : ℝ) * (sBB (pairRows ds a b) : ℝ)) :=
      Real.sqrt_pos.mpr hposR
    have habs : |(sAB (pairRows ds a b) : ℝ)| ≤
        Real.sqrt ((sAA (pairRows ds a b) : ℝ) * (sBB (pairRows ds a b) : ℝ)) := by
      rw [← Real.sqrt_sq_eq_abs]
      exact Real.sqrt_le_sqrt hsq
    have : |correlate ds a b| ≤ 1 := by
      rw [correlate, abs_div, abs_of_nonneg (Real.sqrt_nonneg _)]
      exact (div_le_one hsqrtpos).mpr habs
    exact abs_le.mp this
  · intro hnd
    have heq : ∀ p ∈ pairRows ds v v, p.1 = p.2 := pairRows_self_eq ds v
    have hmean : meanSnd (pairRows ds v v) = meanFst (pairRows ds v v) := by
      rw [meanFst, meanSnd]
      congr 2
      exact (List.map_congr_left fun p hp => (heq p hp).symm)
    have hBB : sBB (pairRows ds v v) = sAA (pairRows ds v v) := by
      rw [sAA, sBB, hmean]
      congr 1
      exact List.map_congr_left fun p hp => by rw [heq p hp]
    have hAB : sAB (pairRows ds v v) = sAA (pairRows ds v v) := by
      rw [sAA, sAB, hmean]
      congr 1
      refine List.map_congr_left fun p hp => ?_
      rw [heq p hp, sq]
    have hApos : (0 : ℝ) < (sAA (pairRows ds v v) : ℝ) := by
      have := lt_of_le_of_ne (sAA_nonneg (pairRows ds v v)) (Ne.symm hnd)
      exact_mod_cast this
    rw [correlate, hAB, hBB, Real.sqrt_mul_self hApos.le, div_self hApos.ne']

/-- Witness for C2: on a concrete dataset, the correlation cell of the pair
`(x, y)` is symmetric and, the pair being non-degenerate, lies in `[-1, 1]`,
and the diagonal cell of the non-degenerate variable `x` equals 1. -/
theorem correlate_matrix_props_witness :
    correlate corrDs "x" "y" = correlate corrDs "y" "x" ∧
    sAA (pairRows corrDs "x" "y") * sBB (pairRows corrDs "x" "y") ≠ 0 ∧
    (-1 ≤ correlate corrDs "x" "y" ∧ correlate corrDs "x" "y" ≤ 1) ∧
    sAA (pairRows corrDs "x" "x") ≠ 0 ∧
    correlate corrDs "x" "x" = 1 := by
  have h := correlate_matrix_props corrDs "x" "y" "x"
  have hdef : sAA (pairRows corrDs "x" "y") * sBB (pairRows corrDs "x" "y") ≠ 0 := by
    simp [pairRows, corrDs, List.filterMap_cons, List.filterMap_nil]
    norm_num [sAA, sBB, meanFst, meanSnd]
  have hnd : sAA (pairRows corrDs "x" "x") ≠ 0 := by
    simp [pairRows, corrDs, List.filterMap_cons, List.filterMap_nil]
    norm_num [sAA, meanFst]
  exact ⟨h.1, hdef, h.2.1 hdef, hnd, h.2.2 hnd⟩

theorem cleanValue_idem (spec : VarSpec) (v : Option ℚ) :
    cleanValue spec (cleanValue spec v) = cleanValue spec v := by
  cases v with
  | none => rfl
  | some q =>
    by_cases h : q ∈ spec.sentinels ∨ q < spec.lo ∨ spec.hi < q <;>
      simp [cleanValue, h]

theorem cleanRow_idem (catalog : List VarSpec) (r : RawRow) :
    cleanRow catalog (cleanRow catalog r) = cleanRow catalog r := by
  induction catalog generalizing r with
  | nil => rfl
  | cons s t ih =>
    cases r with
    | nil => rfl
    | cons v vs =>
      simp only [cleanRow, List.zipWith_cons_cons, cleanValue_idem]
      exact congrArg (cleanValue s v :: ·) (ih vs)

theorem rowChangeCount_cleanRow (catalog : List VarSpec) (r : RawRow) :
    rowChangeCount catalog (cleanRow catalog r) = 0 := by
  induction catalog generalizing r with
  | nil => rfl
  | cons s t ih =>
    cases r with
    | nil => rfl
    | cons v vs =>
      simp only [rowChangeCount, cleanRow, List.zipWith_cons_cons,
        cleanValue_idem, List.sum_cons, if_pos, zero_add]
      exact ih vs

/-- Cleaning a dataset every row of which cleaning fixes, keeps, and charges
no change to, returns it unchanged with an all-zero report. -/
theorem clean_of_fixed (catalog : List VarSpec) (respIdx : ℕ)
    (l : List RawRow)
    (hfix : ∀ r ∈ l, cleanRow catalog r = r)
    (hkeep : ∀ r ∈ l, hasResponse respIdx r = true)
    (hcnt : ∀ r ∈ l, rowChangeCount catalog r = 0) :
    clean catalog respIdx l =
      (l, { valuesSetMissing := 0, rowsDroppedMissingResponse := 0 }) := by
  have hmap : l.map (cleanRow catalog) = l := by
    rw [List.map_congr_left hfix]
    simp
  have hfilter : l.filter (hasResponse respIdx) = l :=
    List.filter_eq_self.mpr hkeep
  have hsum : (l.map (rowChangeCount catalog)).sum = 0 := by
    refine List.sum_eq_zero fun x hx => ?_
    obtain ⟨r, hr, rfl⟩ := List.mem_map.mp hx
    exact hcnt r hr
  simp only [clean]
  rw [hmap, hfilter, hsum, Nat.sub_self]

/-- C7: cleaning is idempotent — re-cleaning an already-cleaned dataset
returns the same rows (in particular the same row count) and a
CleaningReport whose drop and impute counts are both zero. -/
theorem clean_idempotent (catalog : List VarSpec) (respIdx : ℕ)
    (ds : List RawRow) :
    clean catalog respIdx (clean catalog respIdx ds).1 =
      ((clean catalog respIdx ds).1,
        { valuesSetMissing := 0, rowsDroppedMissingResponse := 0 }) := by
  refine clean_of_fixed catalog respIdx _ ?_ ?_ ?_
  · intro r hr
    have hr2 : r ∈ ds.map (cleanRow catalog) := List.mem_of_mem_filter hr
    obtain ⟨s, -, rfl⟩ := List.mem_map.mp hr2
    exact cleanRow_idem catalog s
  · intro r hr
    exact List.of_mem_filter hr
  · intro r hr
    have hr2 : r ∈ ds.map (cleanRow catalog) := List.mem_of_mem_filter hr
    obtain ⟨s, -, rfl⟩ := List.mem_map.mp hr2
    exact rowChangeCount_cleanRow catalog s

/-- C6: `compose` includes at most 3 grounding facts at depth `brief`, at
most 8 at depth `standard`, and at depth `deep` every available grounding
fact plus the methodology caveat clause appended to the composed context. -/
theorem compose_depth_bounds (grounding : List String) (userMessage : String) :
    (compose .brief grounding userMessage).groundingFacts.length ≤ 3 ∧
    (compose .standard grounding userMessage).groundingFacts.length ≤ 8 ∧
    (compose .deep grounding userMessage).groundingFacts = grounding ∧
    ∃ p, (compose .deep grounding userMessage).systemPrompt =
      p ++ methodologyCaveat := by
  refine ⟨?_, ?_, rfl, ⟨_, rfl⟩⟩
  · simp [compose] 
  · simp [compose]

/-- C4: for a non-empty trimmed input, the request body is exactly
`{message: trimmed input, research_depth: selected depth}`, and on an
ok-status reply with a well-formed body the appended AI bubble is exactly
the `response` field of the returned JSON. -/
theorem sendMessage_success (input depth r : String) (status : ℕ)
    (chat : List ChatMessage) (h : jsTrim input ≠ "") :
    (sendMessage input depth (.response true status (some r)) chat).request =
      some { message := jsTrim input, research_depth := depth } ∧
    (sendMessage input depth (.response true status (some r)) chat).chat =
      chat ++ [{ sender := "user", content := jsTrim input },
        { sender := "ai", content := r }] := by
  simp [sendMessage, h]

/-- Witness for C4: sending `"  hello "` at depth `"deep"` against an ok
reply whose `response` field is `"Hi there"`. -/
theorem sendMessage_success_witness :
    jsTrim "  hello " ≠ "" ∧
    (sendMessage "  hello " "deep" (.response true 200 (some "Hi there"))
        []).request = some { message := "hello", research_depth := "deep" } ∧
    (sendMessage "  hello " "deep" (.response true 200 (some "Hi there"))
        []).chat = [{ sender := "user", content := "hello" },
          { sender := "ai", content := "Hi there" }] := by
  have ht : jsTrim "  hello " = "hello" := by decide
  have hne : jsTrim "  hello " ≠ "" := by rw [ht]; simp
  have h := sendMessage_success "  hello " "deep" "Hi there" 200 [] hne
  rw [ht] at h
  exact ⟨hne, h.1, by rw [h.2]; rfl⟩

/-- C5: on every failure of the AI-assistant call — network error, non-ok
HTTP status, or a body on which JSON parsing throws — `sendMessage` catches
the fault (it returns normally) and appends the fixed error bubble, with the
user's own message still in place before it. -/
theorem sendMessage_failure (input depth : String) (outcome : FetchOutcome)
    (chat : List ChatMessage) (h : jsTrim input ≠ "")
    (hfail : outcome = .networkError ∨
      (∃ status body, outcome = .response false status body) ∨
      (∃ status, outcome = .response true status none)) :
    (sendMessage input depth outcome chat).chat =
      chat ++ [{ sender := "user", content := jsTrim input },
        { sender := "ai", content := aiErrorText }] := by
  rcases hfail with rfl | ⟨s, b, rfl⟩ | ⟨s, rfl⟩ <;> simp [sendMessage, h]

/-- Witness for C5: a network fault on input `"hi"` leaves the user bubble
in place and appends the fixed error bubble. -/
theorem sendMessage_failure_witness :
    jsTrim "hi" ≠ "" ∧
    (sendMessage "hi" "brief" .networkError []).chat =
      [{ sender := "user", content := "hi" },
        { sender := "ai", content := aiErrorText }] := by
  have ht : jsTrim "hi" = "hi" := by decide
  have hne : jsTrim "hi" ≠ "" := by rw [ht]; simp
  have h := sendMessage_failure "hi" "brief" .networkError [] hne (Or.inl rfl)
  rw [ht] at h
  exact ⟨hne, by rw [h]; rfl⟩

/-- C8: the country and demographics box-plot payloads are fabricated by
jittering the group mean; two renderings of the same backend response (two
valid `Math.random()` streams) can produce different chart data, so the
rendered values are not a deterministic function of the backend output. -/
theorem boxplot_jitter_nondeterministic (mean : ℚ) (count : ℕ)
    (hc : 0 < count) :
    ∃ r₁ r₂ : ℕ → ℚ,
      (∀ i, 0 ≤ r₁ i ∧ r₁ i < 1) ∧ (∀ i, 0 ≤ r₂ i ∧ r₂ i < 1) ∧
      countryBoxY mean count r₁ ≠ countryBoxY mean count r₂ ∧
      demoBoxY mean r₁ ≠ demoBoxY mean r₂ := by
  refine ⟨fun _ => 0, fun _ => 1 / 2, fun i => by norm_num,
    fun i => by norm_num, ?_, ?_⟩
  · intro hEq
    have h0 := congrArg (fun l => l[0]?) hEq
    simp only [countryBoxY, List.getElem?_map, List.getElem?_range, hc,
      jitteredValue] at h0
    norm_num at h0
  · intro hEq
    have h0 := congrArg (fun l => l[0]?) hEq
    have h1000 : (0 : ℕ) < 1000 := by norm_num
    simp only [demoBoxY, List.getElem?_map, List.getElem?_range, h1000,
      jitteredValue] at h0
    norm_num at h0

/-- Witness for C8: a concrete group mean of 3 with five counted
observations. -/
theorem boxplot_jitter_nondeterministic_witness :
    (0 : ℕ) < 5 ∧
    ∃ r₁ r₂ : ℕ → ℚ,
      (∀ i, 0 ≤ r₁ i ∧ r₁ i < 1) ∧ (∀ i, 0 ≤ r₂ i ∧ r₂ i < 1) ∧
      countryBoxY 3 5 r₁ ≠ countryBoxY 3 5 r₂ ∧
      demoBoxY 3 r₁ ≠ demoBoxY 3 r₂ :=
  ⟨by norm_num, boxplot_jitter_nondeterministic 3 5 (by norm_num)⟩

/-- C9: `loadData` assigns `currentData` and invokes the rendering functions
only when all six backend requests succeed; if any one fails, `currentData`
is left unchanged, no rendering function runs, the loading overlay is
hidden, and the error notification is shown — the page is never rendered
from a partial subset of responses. -/
theorem loadData_all_or_nothing {J : Type} (prev : Option (AppData J))
    (o r d c dm : Except String J)
    (s : Except String (ScatterPayload J)) :
    ((o.isOk && r.isOk && d.isOk && c.isOk && dm.isOk && s.isOk) = false →
      (loadData prev o r d c dm s).currentData = prev ∧
      (loadData prev o r d c dm s).renderCalls = [] ∧
      (loadData prev o r d c dm s).loadingVisible = false ∧
      (loadData prev o r d c dm s).errorMessage.isSome = true) ∧
    (∀ ov rg di co de sc, o = .ok ov → r = .ok rg → d = .ok di →
      c = .ok co → dm = .ok de → s = .ok sc →
      loadData prev o r d c dm s =
        { currentData := some
            { overview := ov
              distributions := di
              countryStats := co
              demographics := de
              scatterData := sc.data
              regression := rg }
          renderCalls := ["updateMetrics", "createCharts", "performAnalysis"]
          loadingVisible := false
          errorMessage := none }) := by
  constructor
  · intro hfail
    cases o <;> cases r <;> cases d <;> cases c <;> cases dm <;> cases s <;>
      simp_all [loadData, loadFailState, Except.isOk, Except.toBool]
  · rintro ov rg di co de sc rfl rfl rfl rfl rfl rfl
    rfl

/-- Witness for C9: with the regression request failing and the other five
succeeding, `currentData` stays `none`, nothing is rendered, the overlay is
hidden, and the error notification is shown. -/
theorem loadData_all_or_nothing_witness :
    (((Except.ok 1 : Except String ℕ).isOk &&
        (Except.error "HTTP 500" : Except String ℕ).isOk &&
        (Except.ok 2 : Except String ℕ).isOk &&
        (Except.ok 3 : Except String ℕ).isOk &&
        (Except.ok 4 : Except String ℕ).isOk &&
        (Except.ok ⟨5⟩ : Except String (ScatterPayload ℕ)).isOk) = false) ∧
    ((loadData (none : Option (AppData ℕ)) (.ok 1) (.error "HTTP 500")
        (.ok 2) (.ok 3) (.ok 4) (.ok ⟨5⟩)).currentData = none ∧
      (loadData (none : Option (AppData ℕ)) (.ok 1) (.error "HTTP 500")
        (.ok 2) (.ok 3) (.ok 4) (.ok ⟨5⟩)).renderCalls = [] ∧
      (loadData (none : Option (AppData ℕ)) (.ok 1) (.error "HTTP 500")
        (.ok 2) (.ok 3) (.ok 4) (.ok ⟨5⟩)).loadingVisible = false ∧
      (loadData (none : Option (AppData ℕ)) (.ok 1) (.error "HTTP 500")
        (.ok 2) (.ok 3) (.ok 4) (.ok ⟨5⟩)).errorMessage.isSome = true) :=
  ⟨rfl,
    (loadData_all_or_nothing (none : Option (AppData ℕ)) (.ok 1)
      (.error "HTTP 500") (.ok 2) (.ok 3) (.ok 4) (.ok ⟨5⟩)).1 rfl⟩

/-- C10: whatever age and education frequency arrays arrive,
`createDistributionCharts` plots them against the fixed client-generated
axes — the 74 ages 16 through 89 and the seven labels "1" through "7" — so
the frontend assumes the backend arrays have exactly those lengths and
alignments. -/
theorem distribution_axes_fixed (ageFreqs eduFreqs : List ℚ) :
    (ageSeries ageFreqs).x = ageXValues ∧
    ageXValues.length = 74 ∧
    ageXValues.head? = some 16 ∧
    ageXValues.getLast? = some 89 ∧
    (educationSeries eduFreqs).x = educationXLabels ∧
    educationXLabels.length = 7 ∧
    (∀ otherAge otherEdu : List ℚ,
      (ageSeries otherAge).x = (ageSeries ageFreqs).x ∧
      (educationSeries otherEdu).x = (educationSeries eduFreqs).x) ∧
    (ageSeries ageFreqs).y = ageFreqs ∧
    (educationSeries eduFreqs).y = eduFreqs :=
  ⟨rfl, by decide, by decide, by decide, rfl, rfl,
    fun _ _ => ⟨rfl, rfl⟩, rfl, rfl⟩

end ESS
